import Mathlib

/-!
Verification development for the Daylight Brightness Index engine of the
WeatherMeteoApp repository.

Two source variants are embedded:
* `BIdx`  — `src/services/brightnessIndex.ts` (the rich variant with
  atmospheric attenuation);
* `WIdx`  — `src/weather/services/brightnessIndex.ts` (the altitude-only
  variant with the −9° twilight calibration).

Modelling conventions:
* JS `number` values that arise in the math pipeline are modelled by `ℝ`.
* Epoch timestamps are integral milliseconds (`ℤ`); UTC offsets are integral
  minutes (`ℤ`), as everywhere in the sources.
* A JS `Date` carries either a valid epoch (`some e`) or is an *invalid
  Date* (`none`, `getTime()` = NaN).  A timestamp input (`Date`, number, or
  string) is modelled by `JSTime`; a string is modelled by whether it carries
  an explicit zone suffix (the `/[zZ]|[+-]\d\x7b2\x7d:?\d\x7b2\x7d$/` test in the source)
  and by its parse result.  An unparseable string parses to `none` under any
  appended offset.
* JS `Date` field getters (`getHours`, `getFullYear`, ...) read the device's
  local wall clock.  They are therefore modelled with an explicit device
  offset parameter `dev` (minutes added to UTC to obtain device-local time);
  the `getUTC*` getters are the same functions at offset `0`.
* A thrown JS exception is modelled by `Except.error`; `Array.prototype.map`
  over a throwing callback aborts the whole batch, which `mapThrow` mirrors.
* NaN: every arithmetic, `Math.*` and comparison operation the element
  pipeline applies to NaN is NaN-strict (returns NaN, or false for
  comparisons), so an invalid Date deterministically yields a NaN element;
  this single fact is modelled by propagating the `none` of an invalid Date
  directly to the element result instead of threading NaN through `ℝ`.
-/

/-! ## Shared numeric utilities
(`src/services/brightnessIndex.ts` lines 151–156; textually identical
definitions appear in `src/weather/services/brightnessIndex.ts`.) -/

noncomputable def clamp (lo v hi : ℝ) : ℝ := max lo (min hi v)

noncomputable def clamp01 (v : ℝ) : ℝ := clamp 0 v 1

noncomputable def lerp (a b t : ℝ) : ℝ := a + (b - a) * clamp01 t

noncomputable def toRad (deg : ℝ) : ℝ := deg * Real.pi / 180

noncomputable def toDeg (r : ℝ) : ℝ := r * 180 / Real.pi

/-- JS truncation toward zero, as performed by the `%` remainder operator. -/
noncomputable def jsTrunc (r : ℝ) : ℤ := if 0 ≤ r then ⌊r⌋ else ⌈r⌉

/-- The JS `%` operator on numbers: remainder with the sign of the dividend. -/
noncomputable def jsMod (x y : ℝ) : ℝ := x - y * (jsTrunc (x / y) : ℝ)

/-- The source's two-step normalization
`let tst = x % 1440; if (tst < 0) tst += 1440;`. -/
noncomputable def jsModNorm (x : ℝ) : ℝ :=
  let t := jsMod x 1440
  if t < 0 then t + 1440 else t

/-- Mathematical `mod` into `[0, y)`, as the spec's step 4 words it. -/
noncomputable def properMod (x y : ℝ) : ℝ := x - y * (⌊x / y⌋ : ℝ)

/-! ## Proleptic Gregorian calendar on epoch days
(JS `Date` field semantics; Howard Hinnant's civil-from-days algorithm.
Lean's `/` and `%` on `ℤ` are Euclidean, which for the positive divisors
used here coincide with the floor division JS day arithmetic needs.) -/

def daysFromCivil (y m d : ℤ) : ℤ :=
  let y2 := if m ≤ 2 then y - 1 else y
  let era := y2 / 400
  let yoe := y2 - era * 400
  let doy := (153 * (if 2 < m then m - 3 else m + 9) + 2) / 5 + d - 1
  let doe := yoe * 365 + yoe / 4 - yoe / 100 + doy
  era * 146097 + doe - 719468

def civilFromDays (z0 : ℤ) : ℤ × ℤ × ℤ :=
  let z := z0 + 719468
  let era := z / 146097
  let doe := z - era * 146097
  let yoe := (doe - doe / 1460 + doe / 36524 - doe / 146096) / 365
  let y := yoe + era * 400
  let doy := doe - (365 * yoe + yoe / 4 - yoe / 100)
  let mp := (5 * doy + 2) / 153
  let d := doy - (153 * mp + 2) / 5 + 1
  let m := if mp < 10 then mp + 3 else mp - 9
  (if m ≤ 2 then y + 1 else y, m, d)

def yearOfDays (z : ℤ) : ℤ := (civilFromDays z).1

/-! ## JS Date getters
`dev` is the device-local offset in minutes; `getUTC*` is the `dev = 0`
case.  `e` is the epoch in milliseconds. -/

def localMs (dev e : ℤ) : ℤ := e + dev * 60000

def getHoursAt (dev e : ℤ) : ℤ := localMs dev e % 86400000 / 3600000

def getMinutesAt (dev e : ℤ) : ℤ := localMs dev e % 3600000 / 60000

def getSecondsAt (dev e : ℤ) : ℤ := localMs dev e % 60000 / 1000

def getFullYearAt (dev e : ℤ) : ℤ := yearOfDays (localMs dev e / 86400000)

def getMonthAt (dev e : ℤ) : ℤ := (civilFromDays (localMs dev e / 86400000)).2.1 - 1

def getDateAt (dev e : ℤ) : ℤ := (civilFromDays (localMs dev e / 86400000)).2.2

/-- A timestamp input (`Date | string | number`), §3's `HourlyObservation.timestamp`.
`date none` is an invalid `Date` object; `num none` is a NaN number;
`str hasTz none` is a string no appended offset makes parseable.
For `str true v`, `v` is the absolute instant the zone-tagged string denotes;
for `str false v`, `v` is the wall-clock reading of the naive string taken as
if it were UTC (so interpreting it at offset `o` minutes yields the instant
`v - o * 60000`). -/
inductive JSTime where
  | date (v : Option ℤ)
  | num (v : Option ℤ)
  | str (hasTz : Bool) (v : Option ℤ)

/-- `Array.prototype.map` over a callback that may throw: one throwing
element aborts the whole call. -/
def mapThrow {α β : Type} (f : α → Except String β) : List α → Except String (List β)
  | [] => .ok []
  | a :: as =>
    match f a with
    | .error e => .error e
    | .ok b =>
      match mapThrow f as with
      | .error e => .error e
      | .ok bs => .ok (b :: bs)

namespace BIdx

/-! # `src/services/brightnessIndex.ts` -/

/-- `HourlyInputs` (lines 9–15). -/
structure HourlyInputs where
  time : JSTime
  tempC : Option ℝ := none
  precipMm : Option ℝ := none
  cloudCoverPct : Option ℝ := none
  weatherCode : Option ℤ := none

/-- `BrightnessOptions` (lines 17–25). -/
structure BrightnessOptions where
  latitude : ℝ
  longitude : ℝ
  timezoneOffsetMinutes : Option ℤ := none

/-- `coerceDate` (lines 144–149).  A `Date` instance is returned unchanged —
even an invalid one; `new Date(number)`/`new Date(string)` results are
checked with `isNaN(d.getTime())` and throw `Error('Invalid time')`.
A naive string is parsed by `new Date` in the device-local zone. -/
def coerceDate (dev : ℤ) : JSTime → Except String (Option ℤ)
  | .date v => .ok v
  | .num (some e) => .ok (some e)
  | .num none => .error "Invalid time"
  | .str _ none => .error "Invalid time"
  | .str true (some a) => .ok (some a)
  | .str false (some w) => .ok (some (w - dev * 60000))

/-- `dayOfYear` (lines 102–106): `new Date(d.getFullYear(), 0, 0)` is
device-local midnight of 31 December of the previous year;
`Math.floor(diff / 86_400_000)` is floor division. -/
def dayOfYear (dev e : ℤ) : ℤ :=
  let start := daysFromCivil (getFullYearAt dev e - 1) 12 31 * 86400000 - dev * 60000
  (e - start) / 86400000

/-- Line 75: `localDate.getHours() + localDate.getMinutes() / 60 + localDate.getSeconds() / 3600`. -/
noncomputable def hourOfDay (dev e : ℤ) : ℝ :=
  (getHoursAt dev e : ℝ) + (getMinutesAt dev e : ℝ) / 60 + (getSecondsAt dev e : ℝ) / 3600

/-- Equation of time in minutes (lines 79–82). -/
noncomputable def eqtimeOf (gamma : ℝ) : ℝ :=
  229.18 * (0.000075 + 0.001868 * Real.cos gamma - 0.032077 * Real.sin gamma
    - 0.014615 * Real.cos (2 * gamma) - 0.040849 * Real.sin (2 * gamma))

/-- Solar declination in radians (lines 83–85). -/
noncomputable def declOf (gamma : ℝ) : ℝ :=
  0.006918 - 0.399912 * Real.cos gamma + 0.070257 * Real.sin gamma
    - 0.006758 * Real.cos (2 * gamma) + 0.000907 * Real.sin (2 * gamma)
    - 0.002697 * Real.cos (3 * gamma) + 0.00148 * Real.sin (3 * gamma)

/-- The body of `solarAltitudeDeg` (lines 76–99), factored over the already
extracted `day` and `hour` decimals.  The same NOAA block appears verbatim in
`src/weather/services/brightnessIndex.ts` lines 208–244, so both variants
share this core. -/
noncomputable def solarAltCore (day hour lat lon tz : ℝ) : ℝ :=
  let gamma := 2 * Real.pi / 365 * (day - 1 + (hour - 12) / 24)
  let eqtime := eqtimeOf gamma
  let decl := declOf gamma
  let timeOffset := eqtime + 4 * lon - tz
  let tst := jsModNorm (hour * 60 + timeOffset)
  let ha := toRad (tst / 4 - 180)
  let cosZenith := Real.sin (toRad lat) * Real.sin decl
    + Real.cos (toRad lat) * Real.cos decl * Real.cos ha
  let zenith := Real.arccos (clamp (-1) cosZenith 1)
  toDeg (Real.pi / 2 - zenith)

/-- `solarAltitudeDeg` (lines 73–100): day-of-year and the decimal hour are
read off the device-local wall clock of `e` (`getHours` etc.), hence the
`dev` parameter. -/
noncomputable def solarAltitudeDeg (dev e : ℤ) (lat lon : ℝ) (tz : ℤ) : ℝ :=
  solarAltCore (dayOfYear dev e : ℝ) (hourOfDay dev e) lat lon (tz : ℝ)

/-- The `(−18, −12]` band formula of line 113. -/
noncomputable def astroBand (a : ℝ) : ℝ := lerp 0.01 0.06 ((a + 18) / 6)

/-- The `(−12, −6]` band formula of line 114. -/
noncomputable def nauticalBand (a : ℝ) : ℝ := lerp 0.06 0.2 ((a + 12) / 6)

/-- The `(−6, 0]` band formula of line 115. -/
noncomputable def civilBand (a : ℝ) : ℝ := lerp 0.2 0.55 ((a + 6) / 6)

/-- The above-horizon easing of lines 118–120. -/
noncomputable def dayBand (a : ℝ) : ℝ :=
  clamp01 (0.55 + 0.45 * Real.sin (Real.pi / 2 * clamp01 (a / 60)) ^ (0.9 : ℝ))

/-- `daylightFactorFromAltitude` (lines 110–121). -/
noncomputable def daylightFactorFromAltitude (a : ℝ) : ℝ :=
  if a ≤ -18 then 0
  else if a ≤ -12 then astroBand a
  else if a ≤ -6 then nauticalBand a
  else if a ≤ 0 then civilBand a
  else dayBand a

/-- `weatherCodeTransmittance` (lines 123–136). -/
def weatherCodeTransmittance (code : ℤ) : ℝ :=
  if code = 0 ∨ code = 1 ∨ code = 2 then 1.0
  else if code = 3 then 0.9
  else if code = 45 ∨ code = 48 then 0.5
  else if 51 ≤ code ∧ code ≤ 57 then 0.85
  else if 61 ≤ code ∧ code ≤ 67 then 0.75
  else if 71 ≤ code ∧ code ≤ 77 then 0.85
  else if 80 ≤ code ∧ code ≤ 82 then 0.7
  else if code = 85 ∨ code = 86 then 0.8
  else if code = 95 then 0.6
  else if code = 96 ∨ code = 99 then 0.55
  else 0.85

/-- `isSnowCode` (lines 138–140). -/
def isSnowCode (code : ℤ) : Prop := (71 ≤ code ∧ code ≤ 77) ∨ code = 85 ∨ code = 86

instance (code : ℤ) : Decidable (isSnowCode code) := by
  unfold isSnowCode; infer_instance

/-- The per-element pipeline of `computeDaylightBrightnessIndex`
(lines 36–64), given the already computed solar altitude. -/
noncomputable def elementCore (alt : ℝ) (cloudCoverPct precipMm : Option ℝ)
    (weatherCode : Option ℤ) : ℝ :=
  let base := daylightFactorFromAltitude alt
  let cloudFrac := clamp01 (cloudCoverPct.getD 0 / 100)
  let precip := max 0 (precipMm.getD 0)
  let wmo := weatherCode.getD 0
  let altFactor := clamp01 (alt / 60)
  let cloudAttenuationStrength := clamp 0.55 (0.85 - 0.25 * altFactor) 0.85
  let Tcloud := 1 - cloudAttenuationStrength * cloudFrac ^ (1.2 : ℝ)
  let Tprecip := 1 - clamp (precip / 10) 0 0.5
  let Tcode := weatherCodeTransmittance wmo
  let Ttotal := clamp01 (Tcloud * Tprecip * Tcode)
  let index := clamp01 (base * (0.35 + 0.65 * Ttotal))
  if isSnowCode wmo ∧ 5 < alt then min 1 (index * 1.1) else index

/-- One iteration of the `hours.map` callback (lines 32–64).  An invalid
`Date` passes `coerceDate` and its NaN propagates through every step of the
pipeline, so the element result is NaN (`none`). -/
noncomputable def element (dev : ℤ) (opts : BrightnessOptions) (h : HourlyInputs) :
    Except String (Option ℝ) :=
  let tzOffset := opts.timezoneOffsetMinutes.getD 0
  match coerceDate dev h.time with
  | .error e => .error e
  | .ok none => .ok none
  | .ok (some t) =>
    let localE := t + tzOffset * 60000
    let alt := solarAltitudeDeg dev localE opts.latitude opts.longitude tzOffset
    .ok (some (elementCore alt h.cloudCoverPct h.precipMm h.weatherCode))

/-- `computeDaylightBrightnessIndex` (lines 27–67). -/
noncomputable def computeDaylightBrightnessIndex (dev : ℤ) (hours : List HourlyInputs)
    (opts : BrightnessOptions) : Except String (List (Option ℝ)) :=
  mapThrow (element dev opts) hours

/-- The value `element` yields, with failure collapsed to `none`; used to
state order preservation of the batch transform. -/
noncomputable def elementOpt (dev : ℤ) (opts : BrightnessOptions) (h : HourlyInputs) :
    Option ℝ :=
  match element dev opts h with
  | .ok v => v
  | .error _ => none

/-- A timestamp `coerceDate` accepts with a real instant. -/
def parseableTime : JSTime → Bool
  | .date (some _) => true
  | .num (some _) => true
  | .str _ (some _) => true
  | _ => false

end BIdx

namespace WIdx

/-! # `src/weather/services/brightnessIndex.ts` -/

/-- `HourlyInputs` (lines 8–10). -/
structure HourlyInputs where
  time : JSTime

/-- `BrightnessOptions` (lines 12–17).  `opts.timesAreUTC ?` treats a missing
flag as `false`. -/
structure BrightnessOptions where
  latitude : ℝ
  longitude : ℝ
  timezoneOffsetMinutes : Option ℤ := none
  timesAreUTC : Bool := false

/-- `coerceDateWithTimezone` (lines 281–301).  `Date`s and numbers go through
`coerceDate` (invalid `Date`s pass unchecked, NaN numbers throw); a
zone-tagged string is parsed directly *without* an `isNaN` check; a naive
string gets the explicit offset appended and is parsed, also unchecked.  The
longitude fallback branch is unreachable from this module's callers because
they always pass the already defaulted (finite) `timezoneOffsetMinutes ?? 0`,
so `preferLongitudeOffset` never matters. -/
def coerceDateWithTimezone (t : JSTime) (tzOffsetMin : ℤ) (lonDeg : ℝ)
    (preferLongitudeOffset : Bool) : Except String (Option ℤ) :=
  match t with
  | .date v => .ok v
  | .num (some e) => .ok (some e)
  | .num none => .error "Invalid time"
  | .str true v => .ok v
  | .str false v => .ok (v.map fun w => w - tzOffsetMin * 60000)

/-- `getLocalHMSfromUTC` (lines 187–194) folded into the decimal hour of
line 249: UTC fields plus the explicit offset, normalized into a day. -/
noncomputable def hourOfLocalHMS (tz e : ℤ) : ℝ :=
  let mins := getHoursAt 0 e * 60 + getMinutesAt 0 e + tz
  let m := (mins % 1440 + 1440) % 1440
  ((m / 60 : ℤ) : ℝ) + ((m % 60 : ℤ) : ℝ) / 60 + (getSecondsAt 0 e : ℝ) / 3600

/-- `dayOfYearLocal` (lines 196–205): rebuild the epoch from UTC fields with
the offset added to the minutes, then count days from 1 January of that
instant's UTC year. -/
def dayOfYearLocal (tz e : ℤ) : ℤ :=
  let utc := daysFromCivil (getFullYearAt 0 e) (getMonthAt 0 e + 1) (getDateAt 0 e) * 86400000
    + getHoursAt 0 e * 3600000 + (getMinutesAt 0 e + tz) * 60000 + getSecondsAt 0 e * 1000
  let start := daysFromCivil (yearOfDays (utc / 86400000)) 1 1 * 86400000
  (utc - start) / 86400000 + 1

/-- `solarAltitudeDeg` (lines 207–244): the NOAA block is textually the one
of the `BIdx` variant (`BIdx.solarAltCore`), but day and hour come from the
UTC getters plus the explicit offset — never from the device clock. -/
noncomputable def solarAltitudeDeg (e : ℤ) (lat lon : ℝ) (tz : ℤ) : ℝ :=
  BIdx.solarAltCore (dayOfYearLocal tz e : ℝ) (hourOfLocalHMS tz e) lat lon (tz : ℝ)

/-- `daylightFactorFromAltitude` (lines 250–264): the −9° calibration. -/
noncomputable def daylightFactorFromAltitude (a : ℝ) : ℝ :=
  if a ≤ -9 then 0
  else if a ≤ 0 then lerp 0 0.1 ((a + 9) / 9)
  else if a ≤ 10 then lerp 0.1 0.35 (a / 10)
  else if a ≤ 30 then lerp 0.35 0.78 ((a - 10) / 20)
  else clamp01 (0.78 + 0.22 * Real.sin (Real.pi / 2 * clamp01 ((a - 30) / 30)))

/-- One iteration of the `hours.map` callback (lines 29–38).  An invalid
`Date` yields NaN through the whole chain and `Number.isFinite(val)` then
substitutes `0`; a valid instant always yields a finite `clamp01` value, for
which the `isFinite` guard is the identity. -/
noncomputable def element (opts : BrightnessOptions) (h : HourlyInputs) :
    Except String ℝ :=
  let tzOffset := opts.timezoneOffsetMinutes.getD 0
  let preferLon := !opts.timesAreUTC
  match coerceDateWithTimezone h.time tzOffset opts.longitude preferLon with
  | .error e => .error e
  | .ok none => .ok 0
  | .ok (some t) =>
    let localE := if opts.timesAreUTC then t + tzOffset * 60000 else t
    let alt := solarAltitudeDeg localE opts.latitude opts.longitude tzOffset
    .ok (clamp01 (daylightFactorFromAltitude alt))

/-- `computeDaylightBrightnessIndex` (lines 23–45); `tryDiagnostics` only
writes to the console inside a `try/catch` and never affects the result. -/
noncomputable def computeDaylightBrightnessIndex (hours : List HourlyInputs)
    (opts : BrightnessOptions) : Except String (List ℝ) :=
  mapThrow (element opts) hours

end WIdx

/-- A timestamp that is not a `Date` object and parses to NaN (an
unparseable string, or a NaN number). -/
def unparseableNonDate : JSTime → Bool
  | .num none => true
  | .str _ none => true
  | _ => false

/-- A concrete two-observation batch used to instantiate C1. -/
def demoHours : List BIdx.HourlyInputs :=
  [{ time := JSTime.date (some 0) }, { time := JSTime.num (some 3600000) }]

/-- Concrete Berlin-summer options used to instantiate C1. -/
def demoOpts : BIdx.BrightnessOptions :=
  { latitude := 52.52, longitude := 13.405, timezoneOffsetMinutes := some 120 }

/-- The NOAA low-precision altitude computation exactly as §4.1 of the spec
words it, for comparison with the code's `BIdx.solarAltCore`: fractional-year
angle, equation of time and declination from the canonical truncated Fourier
series, true solar time `(hourOfDay × 60 + eqtime + 4 × lon − tz) mod 1440`
normalized into `[0, 1440)` (`properMod`), hour angle `tst / 4 − 180`,
`cos(zenith)` clamped to [−1, 1] before `acos`, altitude `90° − zenith°`. -/
noncomputable def noaaAltitudeSpec (day hour lat lon tz : ℝ) : ℝ :=
  let gamma := 2 * Real.pi / 365 * (day - 1 + (hour - 12) / 24)
  let eqtime := 229.18 * (0.000075 + 0.001868 * Real.cos gamma - 0.032077 * Real.sin gamma
    - 0.014615 * Real.cos (2 * gamma) - 0.040849 * Real.sin (2 * gamma))
  let decl := 0.006918 - 0.399912 * Real.cos gamma + 0.070257 * Real.sin gamma
    - 0.006758 * Real.cos (2 * gamma) + 0.000907 * Real.sin (2 * gamma)
    - 0.002697 * Real.cos (3 * gamma) + 0.00148 * Real.sin (3 * gamma)
  let tst := properMod (hour * 60 + eqtime + 4 * lon - tz) 1440
  let haDeg := tst / 4 - 180
  let cosZenith := Real.sin (toRad lat) * Real.sin decl
    + Real.cos (toRad lat) * Real.cos decl * Real.cos (toRad haDeg)
  let zenith := Real.arccos (clamp (-1) cosZenith 1)
  90 - toDeg zenith

/-! ## Basic facts about the numeric utilities -/

theorem clamp01_eq_max_min (v : ℝ) : clamp01 v = max 0 (min 1 v) := rfl

theorem clamp01_nonneg (v : ℝ) : 0 ≤ clamp01 v := le_max_left 0 _

theorem clamp01_le_one (v : ℝ) : clamp01 v ≤ 1 :=
  max_le (by norm_num) (min_le_left 1 v)

theorem clamp01_eq_self {v : ℝ} (h0 : 0 ≤ v) (h1 : v ≤ 1) : clamp01 v = v := by
  unfold clamp01 clamp
  rw [min_eq_right h1, max_eq_right h0]

theorem clamp01_mono {a b : ℝ} (h : a ≤ b) : clamp01 a ≤ clamp01 b :=
  max_le_max le_rfl (min_le_min le_rfl h)

theorem le_clamp01 {c v : ℝ} (h1 : c ≤ v) (h2 : c ≤ 1) : c ≤ clamp01 v :=
  le_trans (le_min h2 h1) (le_max_right 0 _)

theorem le_lerp {a b : ℝ} (hab : a ≤ b) (t : ℝ) : a ≤ lerp a b t := by
  have h0 := clamp01_nonneg t
  unfold lerp; nlinarith

theorem lerp_le {a b : ℝ} (hab : a ≤ b) (t : ℝ) : lerp a b t ≤ b := by
  have h1 := clamp01_le_one t
  have h0 := clamp01_nonneg t
  unfold lerp; nlinarith

theorem lerp_mono {a b t₁ t₂ : ℝ} (hab : a ≤ b) (h : t₁ ≤ t₂) :
    lerp a b t₁ ≤ lerp a b t₂ := by
  unfold lerp
  have := mul_le_mul_of_nonneg_left (clamp01_mono h) (sub_nonneg.2 hab)
  linarith

/-! ## Range and monotonicity of the daylight-factor bands -/

namespace BIdx

theorem astroBand_ge (a : ℝ) : 0.01 ≤ astroBand a := le_lerp (by norm_num) _

theorem astroBand_le (a : ℝ) : astroBand a ≤ 0.06 := lerp_le (by norm_num) _

theorem nauticalBand_ge (a : ℝ) : 0.06 ≤ nauticalBand a := le_lerp (by norm_num) _

theorem nauticalBand_le (a : ℝ) : nauticalBand a ≤ 0.2 := lerp_le (by norm_num) _

theorem civilBand_ge (a : ℝ) : 0.2 ≤ civilBand a := le_lerp (by norm_num) _

theorem civilBand_le (a : ℝ) : civilBand a ≤ 0.55 := lerp_le (by norm_num) _

theorem sin_arg_mem (x : ℝ) :
    0 ≤ Real.pi / 2 * clamp01 x ∧ Real.pi / 2 * clamp01 x ≤ Real.pi / 2 := by
  constructor
  · exact mul_nonneg (by positivity) (clamp01_nonneg x)
  · nlinarith [clamp01_le_one x, clamp01_nonneg x, Real.pi_pos]

theorem dayBand_sin_nonneg (a : ℝ) :
    0 ≤ Real.sin (Real.pi / 2 * clamp01 (a / 60)) := by
  obtain ⟨h0, h1⟩ := sin_arg_mem (a / 60)
  exact Real.sin_nonneg_of_nonneg_of_le_pi h0 (by nlinarith [Real.pi_pos])

theorem dayBand_ge (a : ℝ) : 0.55 ≤ dayBand a := by
  unfold dayBand
  refine le_clamp01 ?_ (by norm_num)
  nlinarith [Real.rpow_nonneg (dayBand_sin_nonneg a) (0.9 : ℝ)]

theorem dayBand_le (a : ℝ) : dayBand a ≤ 1 := clamp01_le_one _

theorem dayBand_mono {a b : ℝ} (h : a ≤ b) : dayBand a ≤ dayBand b := by
  unfold dayBand
  apply clamp01_mono
  have hc : clamp01 (a / 60) ≤ clamp01 (b / 60) :=
    clamp01_mono (by linarith)
  have hs : Real.sin (Real.pi / 2 * clamp01 (a / 60)) ≤
      Real.sin (Real.pi / 2 * clamp01 (b / 60)) := by
    apply Real.sin_le_sin_of_le_of_le_pi_div_two
    · nlinarith [(sin_arg_mem (a / 60)).1, Real.pi_pos]
    · exact (sin_arg_mem (b / 60)).2
    · nlinarith [Real.pi_pos]
  have := Real.rpow_le_rpow (dayBand_sin_nonneg a) hs (by norm_num : (0:ℝ) ≤ 0.9)
  nlinarith

theorem astroBand_mono {a b : ℝ} (h : a ≤ b) : astroBand a ≤ astroBand b :=
  lerp_mono (by norm_num) (by linarith)

theorem nauticalBand_mono {a b : ℝ} (h : a ≤ b) : nauticalBand a ≤ nauticalBand b :=
  lerp_mono (by norm_num) (by linarith)

theorem civilBand_mono {a b : ℝ} (h : a ≤ b) : civilBand a ≤ civilBand b :=
  lerp_mono (by norm_num) (by linarith)

theorem daylightFactor_nonneg (a : ℝ) : 0 ≤ daylightFactorFromAltitude a := by
  have h1 := astroBand_ge a
  have h2 := nauticalBand_ge a
  have h3 := civilBand_ge a
  have h4 := dayBand_ge a
  unfold daylightFactorFromAltitude
  split_ifs <;> linarith

theorem daylightFactor_le_one (a : ℝ) : daylightFactorFromAltitude a ≤ 1 := by
  have h1 := astroBand_le a
  have h2 := nauticalBand_le a
  have h3 := civilBand_le a
  have h4 := dayBand_le a
  unfold daylightFactorFromAltitude
  split_ifs <;> linarith

end BIdx

namespace BIdx

theorem daylightFactor_mono {a b : ℝ} (hab : a ≤ b) :
    daylightFactorFromAltitude a ≤ daylightFactorFromAltitude b := by
  have g1a := astroBand_ge a
  have g2a := nauticalBand_ge a
  have g3a := civilBand_ge a
  have g4a := dayBand_ge a
  have g1b := astroBand_ge b
  have g2b := nauticalBand_ge b
  have g3b := civilBand_ge b
  have g4b := dayBand_ge b
  have l1a := astroBand_le a
  have l2a := nauticalBand_le a
  have l3a := civilBand_le a
  have l1b := astroBand_le b
  have l2b := nauticalBand_le b
  have l3b := civilBand_le b
  have m1 := astroBand_mono hab
  have m2 := nauticalBand_mono hab
  have m3 := civilBand_mono hab
  have m4 := dayBand_mono hab
  unfold daylightFactorFromAltitude
  split_ifs <;> linarith

theorem weatherCodeTransmittance_zero : weatherCodeTransmittance 0 = 1 := by
  unfold weatherCodeTransmittance
  rw [if_pos (by norm_num)]
  norm_num

theorem dayBand_zero : dayBand 0 = 0.55 := by
  unfold dayBand
  rw [show clamp01 ((0:ℝ) / 60) = 0 from by norm_num [clamp01, clamp, min_def, max_def],
    mul_zero, Real.sin_zero, Real.zero_rpow (by norm_num : (0.9:ℝ) ≠ 0)]
  norm_num [clamp01, clamp, min_def, max_def]

theorem elementCore_no_atmos (alt : ℝ) :
    elementCore alt none none none = daylightFactorFromAltitude alt := by
  simp only [elementCore, Option.getD_none]
  rw [show clamp01 ((0:ℝ) / 100) = 0 from by norm_num [clamp01, clamp, min_def, max_def],
    Real.zero_rpow (by norm_num : (1.2:ℝ) ≠ 0), mul_zero, sub_zero]
  rw [show max (0:ℝ) 0 = 0 from max_self 0]
  rw [show clamp ((0:ℝ) / 10) 0 0.5 = 0 from by norm_num [clamp, min_def, max_def], sub_zero]
  rw [weatherCodeTransmittance_zero]
  rw [show (1:ℝ) * 1 * 1 = 1 from by norm_num]
  rw [show clamp01 (1:ℝ) = 1 from by norm_num [clamp01, clamp, min_def, max_def]]
  rw [show (0.35:ℝ) + 0.65 * 1 = 1 from by norm_num, mul_one]
  rw [clamp01_eq_self (daylightFactor_nonneg alt) (daylightFactor_le_one alt)]
  rw [if_neg]
  intro h
  exact (by decide : ¬ isSnowCode 0) h.1

theorem elementCore_mem_unit (alt : ℝ) (cc pm : Option ℝ) (wc : Option ℤ) :
    0 ≤ elementCore alt cc pm wc ∧ elementCore alt cc pm wc ≤ 1 := by
  simp only [elementCore]
  split_ifs with h
  · exact ⟨le_min (by norm_num) (mul_nonneg (clamp01_nonneg _) (by norm_num)),
      min_le_left _ _⟩
  · exact ⟨clamp01_nonneg _, clamp01_le_one _⟩

theorem clamp_cloud_sanitize (c : ℝ) : clamp01 (clamp 0 c 100 / 100) = clamp01 (c / 100) := by
  unfold clamp01 clamp
  simp only [min_def, max_def]
  split_ifs <;> linarith

theorem elementCore_sanitize (alt c p : ℝ) (w : Option ℤ) :
    elementCore alt (some (clamp 0 c 100)) (some (max 0 p)) w
      = elementCore alt (some c) (some p) w := by
  simp only [elementCore, Option.getD_some]
  rw [clamp_cloud_sanitize, ← max_assoc, max_self]

end BIdx

/-! ## Claim C2: breakpoint continuity of the daylight-factor mapping -/

/-- C2 (counterexample): the claim asserts that at every band boundary,
among them −18°, the lower-band and upper-band formulas agree.  At −18 the
function's value (the night band) is `0`, while the formula of the band
above, `lerp 0.01 0.06 ((a + 18) / 6)`, evaluates to `0.01`: the mapping has
a `0.01` jump at −18 and the claimed continuity fails there. -/
theorem c2_counterexample :
    BIdx.daylightFactorFromAltitude (-18) = 0 ∧
    BIdx.astroBand (-18) = 0.01 ∧
    BIdx.astroBand (-18) ≠ BIdx.daylightFactorFromAltitude (-18) := by
  have h0 : BIdx.daylightFactorFromAltitude (-18) = 0 := by
    unfold BIdx.daylightFactorFromAltitude
    rw [if_pos (by norm_num : (-18:ℝ) ≤ -18)]
  have h1 : BIdx.astroBand (-18) = 0.01 := by
    unfold BIdx.astroBand lerp
    norm_num [clamp01, clamp, min_def, max_def]
  exact ⟨h0, h1, by rw [h0, h1]; norm_num⟩

/-- C2 (amended): `daylightFactorFromAltitude (-18) = 0`, and the adjacent
band formulas agree at the breakpoints −12, −6 and 0 (with the values 0.06,
0.2 and 0.55); at −18, however, the night value `0` differs from the value
`0.01` of the astronomical-twilight band formula, a deliberate 0.01 jump. -/
theorem c2_breakpoint_values :
    BIdx.daylightFactorFromAltitude (-18) = 0 ∧
    BIdx.astroBand (-12) = BIdx.nauticalBand (-12) ∧
    BIdx.nauticalBand (-6) = BIdx.civilBand (-6) ∧
    BIdx.civilBand 0 = BIdx.dayBand 0 ∧
    BIdx.astroBand (-18) = 0.01 := by
  refine ⟨?_, ?_, ?_, ?_, ?_⟩
  · unfold BIdx.daylightFactorFromAltitude
    rw [if_pos (by norm_num : (-18:ℝ) ≤ -18)]
  · unfold BIdx.astroBand BIdx.nauticalBand lerp
    norm_num [clamp01, clamp, min_def, max_def]
  · unfold BIdx.nauticalBand BIdx.civilBand lerp
    norm_num [clamp01, clamp, min_def, max_def]
  · rw [BIdx.dayBand_zero]
    unfold BIdx.civilBand lerp
    norm_num [clamp01, clamp, min_def, max_def]
  · unfold BIdx.astroBand lerp
    norm_num [clamp01, clamp, min_def, max_def]

/-! ## Claim C4: monotonicity of the base curve -/

/-- C4: the unattenuated altitude-to-brightness mapping is non-decreasing:
for altitudes `a1 < a2`,
`daylightFactorFromAltitude a1 ≤ daylightFactorFromAltitude a2`. -/
theorem c4_base_curve_monotone (a1 a2 : ℝ) (h : a1 < a2) :
    BIdx.daylightFactorFromAltitude a1 ≤ BIdx.daylightFactorFromAltitude a2 :=
  BIdx.daylightFactor_mono h.le

theorem c4_witness :
    (-20 : ℝ) < 10 ∧
    BIdx.daylightFactorFromAltitude (-20) ≤ BIdx.daylightFactorFromAltitude 10 :=
  ⟨by norm_num, c4_base_curve_monotone (-20) 10 (by norm_num)⟩

/-! ## Element-level facts for the batch claims -/

namespace BIdx

theorem coerceDate_ok_of_parseable (dev : ℤ) (t : JSTime) (hp : parseableTime t = true) :
    ∃ e, coerceDate dev t = .ok (some e) := by
  cases t with
  | date v =>
    cases v with
    | none => simp [parseableTime] at hp
    | some e => exact ⟨e, rfl⟩
  | num v =>
    cases v with
    | none => simp [parseableTime] at hp
    | some e => exact ⟨e, rfl⟩
  | str hz v =>
    cases v with
    | none => simp [parseableTime] at hp
    | some w =>
      cases hz with
      | true => exact ⟨w, rfl⟩
      | false => exact ⟨w - dev * 60000, rfl⟩

theorem coerceDate_error_of_unparseable (dev : ℤ) (t : JSTime)
    (hb : unparseableNonDate t = true) :
    coerceDate dev t = .error "Invalid time" := by
  cases t with
  | date v => simp [unparseableNonDate] at hb
  | num v =>
    cases v with
    | none => rfl
    | some e => simp [unparseableNonDate] at hb
  | str hz v =>
    cases v with
    | none => cases hz <;> rfl
    | some w => simp [unparseableNonDate] at hb

theorem element_ok_mem_unit (dev : ℤ) (opts : BrightnessOptions) (h : HourlyInputs)
    (hp : parseableTime h.time = true) :
    ∃ r, element dev opts h = .ok (some r) ∧ 0 ≤ r ∧ r ≤ 1 := by
  obtain ⟨e, he⟩ := coerceDate_ok_of_parseable dev h.time hp
  unfold element
  rw [he]
  exact ⟨_, rfl, (elementCore_mem_unit _ _ _ _).1, (elementCore_mem_unit _ _ _ _).2⟩

theorem element_error_of_unparseable (dev : ℤ) (opts : BrightnessOptions)
    (h : HourlyInputs) (hb : unparseableNonDate h.time = true) :
    element dev opts h = .error "Invalid time" := by
  unfold element
  rw [coerceDate_error_of_unparseable dev h.time hb]

theorem elementOpt_mem_unit (dev : ℤ) (opts : BrightnessOptions) (h : HourlyInputs)
    (hp : parseableTime h.time = true) :
    ∃ r, elementOpt dev opts h = some r ∧ 0 ≤ r ∧ r ≤ 1 := by
  obtain ⟨r, hr, h0, h1⟩ := element_ok_mem_unit dev opts h hp
  exact ⟨r, by unfold elementOpt; rw [hr], h0, h1⟩

theorem compute_eq_map_of_parseable (dev : ℤ) (opts : BrightnessOptions)
    (hours : List HourlyInputs) (hp : ∀ h ∈ hours, parseableTime h.time = true) :
    computeDaylightBrightnessIndex dev hours opts
      = .ok (hours.map (elementOpt dev opts)) := by
  induction hours with
  | nil => rfl
  | cons h hs ih =>
    obtain ⟨r, hr, _, _⟩ := element_ok_mem_unit dev opts h (hp h (by simp))
    have ih2 := ih (fun x hx => hp x (by simp [hx]))
    simp only [computeDaylightBrightnessIndex, mapThrow, List.map_cons] at ih2 ⊢
    rw [hr, ih2]
    unfold elementOpt
    rw [hr]

end BIdx

/-! ## Claim C1: batch length, order and output range -/

/-- C1: for a batch whose timestamps are all parseable and a location with
latitude in [−90, 90] and longitude in [−180, 180],
`computeDaylightBrightnessIndex` returns the per-element map of the input
(in particular of the input's length and order), and every element of the
result is a real in [0, 1]. -/
theorem c1_batch_range (dev : ℤ) (opts : BIdx.BrightnessOptions)
    (hours : List BIdx.HourlyInputs)
    (hp : ∀ h ∈ hours, BIdx.parseableTime h.time = true)
    (hlat1 : -90 ≤ opts.latitude) (hlat2 : opts.latitude ≤ 90)
    (hlon1 : -180 ≤ opts.longitude) (hlon2 : opts.longitude ≤ 180) :
    BIdx.computeDaylightBrightnessIndex dev hours opts
        = Except.ok (hours.map (BIdx.elementOpt dev opts))
      ∧ (hours.map (BIdx.elementOpt dev opts)).length = hours.length
      ∧ ∀ x ∈ hours.map (BIdx.elementOpt dev opts),
          ∃ r, x = some r ∧ 0 ≤ r ∧ r ≤ 1 := by
  refine ⟨BIdx.compute_eq_map_of_parseable dev opts hours hp, List.length_map _ _, ?_⟩
  intro x hx
  obtain ⟨h, hh, hxe⟩ := List.mem_map.mp hx
  obtain ⟨r, hr, h0, h1⟩ := BIdx.elementOpt_mem_unit dev opts h (hp h hh)
  exact ⟨r, by rw [← hxe, hr], h0, h1⟩

theorem c1_witness :
    (∀ h ∈ demoHours, BIdx.parseableTime h.time = true) ∧
    (-90 ≤ demoOpts.latitude ∧ demoOpts.latitude ≤ 90) ∧
    (-180 ≤ demoOpts.longitude ∧ demoOpts.longitude ≤ 180) ∧
    BIdx.computeDaylightBrightnessIndex 7 demoHours demoOpts
      = Except.ok (demoHours.map (BIdx.elementOpt 7 demoOpts)) := by
  have hp : ∀ h ∈ demoHours, BIdx.parseableTime h.time = true := by
    intro h hh
    rcases List.mem_cons.mp hh with h1 | h1
    · rw [h1]; rfl
    · rw [List.mem_singleton.mp h1]; rfl
  have hlat1 : (-90:ℝ) ≤ demoOpts.latitude := by norm_num [demoOpts]
  have hlat2 : demoOpts.latitude ≤ 90 := by norm_num [demoOpts]
  have hlon1 : (-180:ℝ) ≤ demoOpts.longitude := by norm_num [demoOpts]
  have hlon2 : demoOpts.longitude ≤ 180 := by norm_num [demoOpts]
  exact ⟨hp, ⟨hlat1, hlat2⟩, ⟨hlon1, hlon2⟩,
    (c1_batch_range 7 demoOpts demoHours hp hlat1 hlat2 hlon1 hlon2).1⟩

/-! ## Claim C7: batch behaviour on one malformed timestamp -/

/-- C7 (counterexample): a single unparseable string in a two-element batch
makes `computeDaylightBrightnessIndex` throw for the whole batch — no array
of per-element results (of the input's length) is produced, and the valid
element's result is lost. -/
theorem c7_counterexample :
    BIdx.computeDaylightBrightnessIndex 0
        [{ time := JSTime.date (some 0) }, { time := JSTime.str false none }]
        { latitude := 0, longitude := 0 } = Except.error "Invalid time" := by
  simp only [BIdx.computeDaylightBrightnessIndex, mapThrow, BIdx.element, BIdx.coerceDate]

/-- C7 (amended): one malformed non-`Date` timestamp (unparseable string or
NaN number) anywhere in the batch makes the whole
`computeDaylightBrightnessIndex` call throw `Invalid time` — the other
elements' results are discarded, so order and length are preserved only when
every timestamp coerces. -/
theorem c7_single_bad_aborts (dev : ℤ) (opts : BIdx.BrightnessOptions)
    (pre post : List BIdx.HourlyInputs) (bad : BIdx.HourlyInputs)
    (hpre : ∀ h ∈ pre, BIdx.parseableTime h.time = true)
    (hbad : unparseableNonDate bad.time = true) :
    BIdx.computeDaylightBrightnessIndex dev (pre ++ bad :: post) opts
      = Except.error "Invalid time" := by
  induction pre with
  | nil =>
    have he := BIdx.element_error_of_unparseable dev opts bad hbad
    simp only [List.nil_append, BIdx.computeDaylightBrightnessIndex, mapThrow]
    rw [he]
  | cons h hs ih =>
    obtain ⟨r, hr, _, _⟩ := BIdx.element_ok_mem_unit dev opts h (hpre h (by simp))
    have ih2 := ih (fun x hx => hpre x (by simp [hx]))
    simp only [List.cons_append, BIdx.computeDaylightBrightnessIndex, mapThrow] at ih2 ⊢
    have ih3 : mapThrow (BIdx.element dev opts) (hs.append (bad :: post))
        = Except.error "Invalid time" := ih2
    rw [hr, ih3]

theorem c7_witness :
    (∀ h ∈ ([{ time := JSTime.date (some 0) }] : List BIdx.HourlyInputs),
        BIdx.parseableTime h.time = true) ∧
    unparseableNonDate (({ time := JSTime.num none } : BIdx.HourlyInputs).time) = true ∧
    BIdx.computeDaylightBrightnessIndex 0
        ([{ time := JSTime.date (some 0) }] ++ { time := JSTime.num none } :: [])
        { latitude := 1, longitude := 2 } = Except.error "Invalid time" := by
  have hp : ∀ h ∈ ([{ time := JSTime.date (some 0) }] : List BIdx.HourlyInputs),
      BIdx.parseableTime h.time = true := by
    intro h hh
    rw [List.mem_singleton.mp hh]; rfl
  exact ⟨hp, rfl, c7_single_bad_aborts 0 _ _ [] _ hp rfl⟩

/-! ## Claim C8: reaction to unparseable timestamp values -/

/-- C8 (counterexample): in the `src/weather/services` variant an
unparseable zone-tagged string does not fail with any error — the element is
silently given the brightness value `0`. -/
theorem c8_counterexample :
    WIdx.computeDaylightBrightnessIndex [{ time := JSTime.str true none }]
        { latitude := 0, longitude := 0 } = Except.ok [0] ∧
    ∀ s, WIdx.computeDaylightBrightnessIndex [{ time := JSTime.str true none }]
        { latitude := 0, longitude := 0 } ≠ Except.error s := by
  have h : WIdx.computeDaylightBrightnessIndex [{ time := JSTime.str true none }]
      { latitude := 0, longitude := 0 } = Except.ok [0] := by
    simp only [WIdx.computeDaylightBrightnessIndex, mapThrow, WIdx.element,
      WIdx.coerceDateWithTimezone]
  refine ⟨h, fun s hs => ?_⟩
  rw [h] at hs
  exact Except.noConfusion hs

/-- C8 (amended): `coerceDate` throws `Invalid time` for a NaN number and
for an unparseable string, but an invalid `Date` object is passed through
without any error and produces a NaN element in the `src/services` batch
output; the `src/weather/services` variant substitutes brightness `0` for an
unparseable string instead of failing. -/
theorem c8_invalid_timestamp_behavior :
    BIdx.coerceDate 0 (JSTime.num none) = Except.error "Invalid time" ∧
    BIdx.coerceDate 0 (JSTime.str false none) = Except.error "Invalid time" ∧
    BIdx.coerceDate 0 (JSTime.date none) = Except.ok none ∧
    BIdx.computeDaylightBrightnessIndex 0 [{ time := JSTime.date none }]
        { latitude := 0, longitude := 0 } = Except.ok [none] ∧
    WIdx.computeDaylightBrightnessIndex [{ time := JSTime.str false none }]
        { latitude := 0, longitude := 0 } = Except.ok [0] := by
  refine ⟨rfl, rfl, rfl, ?_, ?_⟩
  · simp only [BIdx.computeDaylightBrightnessIndex, mapThrow, BIdx.element, BIdx.coerceDate]
  · simp only [WIdx.computeDaylightBrightnessIndex, mapThrow, WIdx.element,
      WIdx.coerceDateWithTimezone, Option.map_none']

/-! ## Claim C9: absent atmospheric data means no attenuation -/

/-- C9: an observation with no cloud cover, no precipitation and no weather
code gets exactly the unattenuated base daylight factor of its solar
altitude: the attenuation stage is the identity. -/
theorem c9_no_atmos_identity (dev : ℤ) (lat lon : ℝ) (tzo : Option ℤ) (e : ℤ) :
    BIdx.computeDaylightBrightnessIndex dev
        [{ time := JSTime.date (some e) }]
        { latitude := lat, longitude := lon, timezoneOffsetMinutes := tzo }
      = Except.ok [some (BIdx.daylightFactorFromAltitude
          (BIdx.solarAltitudeDeg dev (e + tzo.getD 0 * 60000) lat lon (tzo.getD 0)))] := by
  simp only [BIdx.computeDaylightBrightnessIndex, mapThrow, BIdx.element, BIdx.coerceDate,
    BIdx.elementCore_no_atmos]

/-! ## Claim C10: out-of-range atmospheric inputs are sanitized -/

/-- C10: the batch result is unchanged when an out-of-range cloud-cover
percentage is replaced by its clamp into [0, 100] and a negative
precipitation rate by 0, and the returned element lies in [0, 1] for
arbitrary (also out-of-range) atmospheric inputs. -/
theorem c10_out_of_range_sanitized (dev : ℤ) (lat lon : ℝ) (tzo : Option ℤ) (e : ℤ)
    (c p : ℝ) (w : ℤ) :
    BIdx.computeDaylightBrightnessIndex dev
        [{ time := JSTime.date (some e), precipMm := some p, cloudCoverPct := some c,
           weatherCode := some w }]
        { latitude := lat, longitude := lon, timezoneOffsetMinutes := tzo }
      = BIdx.computeDaylightBrightnessIndex dev
        [{ time := JSTime.date (some e), precipMm := some (max 0 p),
           cloudCoverPct := some (clamp 0 c 100), weatherCode := some w }]
        { latitude := lat, longitude := lon, timezoneOffsetMinutes := tzo }
    ∧ ∃ r, BIdx.computeDaylightBrightnessIndex dev
        [{ time := JSTime.date (some e), precipMm := some p, cloudCoverPct := some c,
           weatherCode := some w }]
        { latitude := lat, longitude := lon, timezoneOffsetMinutes := tzo }
        = Except.ok [some r] ∧ 0 ≤ r ∧ r ≤ 1 := by
  constructor
  · simp only [BIdx.computeDaylightBrightnessIndex, mapThrow, BIdx.element, BIdx.coerceDate]
    rw [BIdx.elementCore_sanitize]
  · refine ⟨BIdx.elementCore
        (BIdx.solarAltitudeDeg dev (e + tzo.getD 0 * 60000) lat lon (tzo.getD 0))
        (some c) (some p) (some w), ?_, (BIdx.elementCore_mem_unit _ _ _ _).1,
        (BIdx.elementCore_mem_unit _ _ _ _).2⟩
    simp only [BIdx.computeDaylightBrightnessIndex, mapThrow, BIdx.element, BIdx.coerceDate]

/-! ## Claim C3: the 0.35 attenuation floor -/

theorem floor_aux (b T : ℝ) (hb0 : 0 < b) (hb1 : b ≤ 1) (hT0 : 0 ≤ T) (hT1 : T ≤ 1) :
    0.35 * b ≤ clamp01 (b * (0.35 + 0.65 * T)) ∧
    0.35 * b ≤ min 1 (clamp01 (b * (0.35 + 0.65 * T)) * 1.1) := by
  have hv : 0.35 * b ≤ b * (0.35 + 0.65 * T) := by nlinarith
  have hle1 : 0.35 * b ≤ 1 := by nlinarith
  have hidx : 0.35 * b ≤ clamp01 (b * (0.35 + 0.65 * T)) := le_clamp01 hv hle1
  refine ⟨hidx, le_min hle1 ?_⟩
  nlinarith [clamp01_nonneg (b * (0.35 + 0.65 * T))]

theorem elementCore_floor (alt : ℝ) (cc pm : Option ℝ) (wc : Option ℤ)
    (hb : 0 < BIdx.daylightFactorFromAltitude alt) :
    0.35 * BIdx.daylightFactorFromAltitude alt ≤ BIdx.elementCore alt cc pm wc := by
  have hb1 := BIdx.daylightFactor_le_one alt
  simp only [BIdx.elementCore]
  have hfl := floor_aux (BIdx.daylightFactorFromAltitude alt)
    (clamp01 ((1 - clamp 0.55 (0.85 - 0.25 * clamp01 (alt / 60)) 0.85
        * clamp01 (cc.getD 0 / 100) ^ (1.2:ℝ))
      * (1 - clamp (max 0 (pm.getD 0) / 10) 0 0.5)
      * BIdx.weatherCodeTransmittance (wc.getD 0)))
    hb hb1 (clamp01_nonneg _) (clamp01_le_one _)
  split_ifs with h
  · exact hfl.2
  · exact hfl.1

/-- C3: for every observation and every cloud-cover, precipitation and
weather-code combination, if the base daylight factor of the observation's
altitude is strictly positive then the attenuated element value returned by
`computeDaylightBrightnessIndex` is at least `0.35 ×` the base: the element
the singleton batch computes is exactly `elementCore` at the observation's
altitude, and `elementCore` never drops below the floor. -/
theorem c3_attenuation_floor (dev : ℤ) (lat lon : ℝ) (tzo : Option ℤ) (e : ℤ)
    (cc pm : Option ℝ) (wc : Option ℤ) (alt : ℝ)
    (hb : 0 < BIdx.daylightFactorFromAltitude alt) :
    0.35 * BIdx.daylightFactorFromAltitude alt ≤ BIdx.elementCore alt cc pm wc ∧
    BIdx.computeDaylightBrightnessIndex dev
        [{ time := JSTime.date (some e), precipMm := pm, cloudCoverPct := cc,
           weatherCode := wc }]
        { latitude := lat, longitude := lon, timezoneOffsetMinutes := tzo }
      = Except.ok [some (BIdx.elementCore
          (BIdx.solarAltitudeDeg dev (e + tzo.getD 0 * 60000) lat lon (tzo.getD 0))
          cc pm wc)] := by
  constructor
  · exact elementCore_floor alt cc pm wc hb
  · simp only [BIdx.computeDaylightBrightnessIndex, mapThrow, BIdx.element, BIdx.coerceDate]

theorem c3_witness :
    0 < BIdx.daylightFactorFromAltitude 0 ∧
    0.35 * BIdx.daylightFactorFromAltitude 0
      ≤ BIdx.elementCore 0 (some 100) (some 50) (some 95) := by
  have hb : 0 < BIdx.daylightFactorFromAltitude 0 := by
    unfold BIdx.daylightFactorFromAltitude
    rw [if_neg (by norm_num : ¬ (0:ℝ) ≤ -18), if_neg (by norm_num : ¬ (0:ℝ) ≤ -12),
      if_neg (by norm_num : ¬ (0:ℝ) ≤ -6), if_pos (le_refl (0:ℝ))]
    unfold BIdx.civilBand lerp
    norm_num [clamp01, clamp, min_def, max_def]
  exact ⟨hb, (c3_attenuation_floor 0 0 0 none 0 (some 100) (some 50) (some 95) 0 hb).1⟩

/-! ## The JS remainder normalization equals the mathematical mod -/

theorem jsModNorm_eq_properMod (x : ℝ) : jsModNorm x = properMod x 1440 := by
  unfold jsModNorm jsMod jsTrunc
  rcases le_or_lt 0 x with hx | hx
  · rw [if_pos (by positivity : (0:ℝ) ≤ x / 1440)]
    have hfl : (⌊x / 1440⌋ : ℝ) ≤ x / 1440 := Int.floor_le (x / 1440)
    have ht0 : ¬ x - 1440 * (⌊x / 1440⌋ : ℝ) < 0 := by
      intro hcon
      nlinarith
    rw [if_neg ht0]
    rfl
  · have hq : ¬ (0:ℝ) ≤ x / 1440 := by
      intro hcon
      nlinarith
    rw [if_neg hq]
    have hceil : x / 1440 ≤ (⌈x / 1440⌉ : ℝ) := Int.le_ceil (x / 1440)
    have ht : x - 1440 * (⌈x / 1440⌉ : ℝ) ≤ 0 := by nlinarith
    rcases eq_or_lt_of_le ht with heq | hlt
    · rw [if_neg (not_lt.mpr (le_of_eq heq.symm))]
      have hqv : x / 1440 = ((⌈x / 1440⌉ : ℤ) : ℝ) := by
        rw [div_eq_iff (by norm_num : (1440:ℝ) ≠ 0)]
        linarith
      have hf : ⌊x / 1440⌋ = ⌈x / 1440⌉ := by
        conv_lhs => rw [hqv]
        rw [Int.floor_intCast]
      unfold properMod
      rw [hf]
    · rw [if_pos hlt]
      have hceq : (⌈x / 1440⌉ : ℤ) = ⌊x / 1440⌋ + 1 := by
        have h1 := Int.floor_le_ceil (x / 1440)
        have h2 := Int.ceil_le_floor_add_one (x / 1440)
        rcases eq_or_lt_of_le h1 with he | h3
        · exfalso
          have hfle : (⌊x / 1440⌋ : ℝ) ≤ x / 1440 := Int.floor_le (x / 1440)
          rw [he] at hfle
          nlinarith
        · omega
      unfold properMod
      push_cast [hceq]
      ring

theorem properMod_nonneg (x : ℝ) : 0 ≤ properMod x 1440 := by
  unfold properMod
  have := Int.floor_le (x / 1440)
  nlinarith

theorem properMod_lt (x : ℝ) : properMod x 1440 < 1440 := by
  unfold properMod
  have := Int.lt_floor_add_one (x / 1440)
  nlinarith

theorem jsModNorm_id {x : ℝ} (h0 : 0 ≤ x) (h1 : x < 1440) : jsModNorm x = x := by
  rw [jsModNorm_eq_properMod]
  unfold properMod
  rw [show ⌊x / 1440⌋ = 0 from Int.floor_eq_zero_iff.mpr
    ⟨by positivity, by rw [div_lt_one (by norm_num : (0:ℝ) < 1440)]; exact h1⟩]
  push_cast
  ring

theorem jsModNorm_neg_add {x : ℝ} (h0 : -1440 < x) (h1 : x < 0) :
    jsModNorm x = x + 1440 := by
  rw [jsModNorm_eq_properMod]
  unfold properMod
  rw [show ⌊x / 1440⌋ = -1 from by
    rw [Int.floor_eq_iff]
    constructor
    · push_cast
      rw [le_div_iff (by norm_num : (0:ℝ) < 1440)]
      linarith
    · push_cast
      rw [div_lt_iff (by norm_num : (0:ℝ) < 1440)]
      linarith]
  push_cast
  ring

/-! ## Claim C5: the code implements the NOAA formulas exactly -/

/-- C5: the code's solar-altitude computation coincides with the NOAA
low-precision algorithm exactly as the spec states it (`noaaAltitudeSpec`):
for all day/hour/latitude/longitude/offset inputs the two agree, and
`solarAltitudeDeg` is that formula applied to the extracted day-of-year and
decimal hour-of-day. -/
theorem c5_noaa_refinement (day hour lat lon tz : ℝ) (dev e : ℤ) (tzi : ℤ) :
    BIdx.solarAltCore day hour lat lon tz = noaaAltitudeSpec day hour lat lon tz ∧
    BIdx.solarAltitudeDeg dev e lat lon tzi
      = noaaAltitudeSpec (BIdx.dayOfYear dev e : ℝ) (BIdx.hourOfDay dev e) lat lon (tzi : ℝ) := by
  have hcore : ∀ d h la lo t : ℝ,
      BIdx.solarAltCore d h la lo t = noaaAltitudeSpec d h la lo t := by
    intro d h la lo t
    simp only [BIdx.solarAltCore, noaaAltitudeSpec, BIdx.eqtimeOf, BIdx.declOf]
    rw [jsModNorm_eq_properMod]
    have harg : ∀ E : ℝ, h * 60 + (E + 4 * lo - t) = h * 60 + E + 4 * lo - t :=
      fun E => by ring
    rw [harg]
    have hdeg : ∀ z : ℝ, toDeg (Real.pi / 2 - z) = 90 - toDeg z := by
      intro z
      unfold toDeg
      field_simp
      ring
    rw [hdeg]
  exact ⟨hcore day hour lat lon tz, hcore _ _ _ _ _⟩

/-! ## Claim C6: sensitivity of `src/services` to the device timezone

`solarAltitudeDeg` of `src/services/brightnessIndex.ts` reads the wall-clock
fields of the shifted instant with `getHours`/`getMinutes`/`getSeconds` and
`getFullYear` — device-local getters.  At the instant 1970-01-01T12:00:00Z
(epoch 43200000) with latitude 0, longitude 0 and location offset 0, a
device at UTC sees hour 12 (sun provably above the horizon) while a device
at UTC+12 sees hour 0 (sun provably below the horizon), so the same
physical instant yields two different altitudes. -/

theorem eqtime_abs_le (g : ℝ) : |BIdx.eqtimeOf g| ≤ 21 := by
  have h1 := Real.neg_one_le_cos g
  have h2 := Real.cos_le_one g
  have h3 := Real.neg_one_le_sin g
  have h4 := Real.sin_le_one g
  have h5 := Real.neg_one_le_cos (2 * g)
  have h6 := Real.cos_le_one (2 * g)
  have h7 := Real.neg_one_le_sin (2 * g)
  have h8 := Real.sin_le_one (2 * g)
  unfold BIdx.eqtimeOf
  rw [abs_le]
  constructor <;> linarith

theorem decl_abs_le (g : ℝ) : |BIdx.declOf g| ≤ 0.5 := by
  have h1 := Real.neg_one_le_cos g
  have h2 := Real.cos_le_one g
  have h3 := Real.neg_one_le_sin g
  have h4 := Real.sin_le_one g
  have h5 := Real.neg_one_le_cos (2 * g)
  have h6 := Real.cos_le_one (2 * g)
  have h7 := Real.neg_one_le_sin (2 * g)
  have h8 := Real.sin_le_one (2 * g)
  have h9 := Real.neg_one_le_cos (3 * g)
  have h10 := Real.cos_le_one (3 * g)
  have h11 := Real.neg_one_le_sin (3 * g)
  have h12 := Real.sin_le_one (3 * g)
  unfold BIdx.declOf
  rw [abs_le]
  constructor <;> linarith

theorem cos_decl_pos (g : ℝ) : 0 < Real.cos (BIdx.declOf g) := by
  have h := decl_abs_le g
  rw [abs_le] at h
  exact Real.cos_pos_of_mem_Ioo
    ⟨by linarith [Real.pi_gt_three], by linarith [Real.pi_gt_three]⟩

theorem toDeg_arccos_pos {v : ℝ} (hv : 0 < v) :
    0 < toDeg (Real.pi / 2 - Real.arccos (clamp (-1) v 1)) := by
  have hclamp : 0 < clamp (-1) v 1 :=
    lt_of_lt_of_le (lt_min one_pos hv) (le_max_right _ _)
  have harc := Real.arccos_lt_pi_div_two.mpr hclamp
  unfold toDeg
  exact div_pos (mul_pos (by linarith) (by norm_num)) Real.pi_pos

theorem toDeg_arccos_neg {v : ℝ} (hv : v < 0) :
    toDeg (Real.pi / 2 - Real.arccos (clamp (-1) v 1)) < 0 := by
  have hclamp : clamp (-1) v 1 < 0 := by
    unfold clamp
    rw [min_eq_right (by linarith : v ≤ (1:ℝ))]
    exact max_lt (by norm_num) hv
  have harc : Real.pi / 2 < Real.arccos (clamp (-1) v 1) :=
    lt_of_not_le fun hcon =>
      absurd (Real.arccos_le_pi_div_two.mp hcon) (not_le.mpr hclamp)
  unfold toDeg
  exact div_neg_of_neg_of_pos (mul_neg_of_neg_of_pos (by linarith) (by norm_num)) Real.pi_pos

theorem altCore_pos_hour12 (day : ℝ) : 0 < BIdx.solarAltCore day 12 0 0 0 := by
  simp only [BIdx.solarAltCore]
  rw [show toRad 0 = 0 from by unfold toRad; ring, Real.sin_zero, Real.cos_zero,
    zero_mul, one_mul, zero_add]
  set g := 2 * Real.pi / 365 * (day - 1 + ((12:ℝ) - 12) / 24) with hg
  have heq := eqtime_abs_le g
  rw [abs_le] at heq
  rw [show (12:ℝ) * 60 + (BIdx.eqtimeOf g + 4 * 0 - 0) = 720 + BIdx.eqtimeOf g from by ring]
  rw [jsModNorm_id (by linarith) (by linarith)]
  set ha := toRad ((720 + BIdx.eqtimeOf g) / 4 - 180) with hha
  have hhab : -(Real.pi / 2) < ha ∧ ha < Real.pi / 2 := by
    rw [hha]
    unfold toRad
    constructor <;> nlinarith [Real.pi_pos]
  have hcosha : 0 < Real.cos ha := Real.cos_pos_of_mem_Ioo ⟨hhab.1, hhab.2⟩
  exact toDeg_arccos_pos (mul_pos (cos_decl_pos g) hcosha)

theorem altCore_neg_hour0 (day : ℝ) : BIdx.solarAltCore day 0 0 0 0 < 0 := by
  simp only [BIdx.solarAltCore]
  rw [show toRad 0 = 0 from by unfold toRad; ring, Real.sin_zero, Real.cos_zero,
    zero_mul, one_mul, zero_add]
  set g := 2 * Real.pi / 365 * (day - 1 + ((0:ℝ) - 12) / 24) with hg
  have heq := eqtime_abs_le g
  rw [abs_le] at heq
  rw [show (0:ℝ) * 60 + (BIdx.eqtimeOf g + 4 * 0 - 0) = BIdx.eqtimeOf g from by ring]
  rcases lt_or_le (BIdx.eqtimeOf g) 0 with hE | hE
  · rw [jsModNorm_neg_add (by linarith) hE]
    set ha := toRad ((BIdx.eqtimeOf g + 1440) / 4 - 180) with hha
    have hb : Real.pi / 2 < ha ∧ ha < Real.pi + Real.pi / 2 := by
      rw [hha]
      unfold toRad
      constructor <;> nlinarith [Real.pi_pos]
    have hcos : Real.cos ha < 0 := Real.cos_neg_of_pi_div_two_lt_of_lt hb.1 hb.2
    exact toDeg_arccos_neg (mul_neg_of_pos_of_neg (cos_decl_pos g) hcos)
  · rw [jsModNorm_id hE (by linarith)]
    set ha := toRad (BIdx.eqtimeOf g / 4 - 180) with hha
    have hcos : Real.cos ha < 0 := by
      rw [show Real.cos ha = Real.cos (-ha) from (Real.cos_neg ha).symm]
      apply Real.cos_neg_of_pi_div_two_lt_of_lt
      · rw [hha]
        unfold toRad
        nlinarith [Real.pi_pos]
      · rw [hha]
        unfold toRad
        nlinarith [Real.pi_pos]
    exact toDeg_arccos_neg (mul_neg_of_pos_of_neg (cos_decl_pos g) hcos)

/-- C6 (failing input): the `src/services` variant's solar altitude at the
same physical instant (1970-01-01T12:00:00Z), the same location (0, 0) and
the same location UTC offset (0) differs between a device running at UTC
(offset 0, altitude > 0) and one at UTC+12 (offset 720, altitude < 0): the
result depends on the runtime environment's device-local timezone, which the
spec forbids. -/
theorem c6_device_timezone_dependence :
    BIdx.solarAltitudeDeg 0 43200000 0 0 0 ≠ BIdx.solarAltitudeDeg 720 43200000 0 0 0 := by
  have hh0 : BIdx.hourOfDay 0 43200000 = 12 := by
    unfold BIdx.hourOfDay getHoursAt getMinutesAt getSecondsAt localMs
    norm_num
  have hh720 : BIdx.hourOfDay 720 43200000 = 0 := by
    unfold BIdx.hourOfDay getHoursAt getMinutesAt getSecondsAt localMs
    norm_num
  have h1 : 0 < BIdx.solarAltitudeDeg 0 43200000 0 0 0 := by
    unfold BIdx.solarAltitudeDeg
    rw [hh0, Int.cast_zero]
    exact altCore_pos_hour12 _
  have h2 : BIdx.solarAltitudeDeg 720 43200000 0 0 0 < 0 := by
    unfold BIdx.solarAltitudeDeg
    rw [hh720, Int.cast_zero]
    exact altCore_neg_hour0 _
  exact ne_of_gt (h2.trans h1)
